import Mathlib

/-!
Verification of the OAuth2 authentication/session bootstrap flow of the
`personal_assistant` single-page application (`src/auth.rs`, `src/main.rs`).

The Rust source is shallowly embedded: browser-global state (the
`oauth_state` localStorage key and the current URL's query parameters) is an
explicit `Browser` record, the backend is an oracle mapping the posted
authorization code to an HTTP response, and the mount-time `use_effect_with`
handler of `app` (main.rs lines 42-84) is a function from the environment to
the final reactive state of the pass.  Transient intermediate states
(`AppState::Loading` set just before the exchange resolves) are not the final
state of a pass and are noted in comments where relevant.
-/

/-- `UserInfo` from auth.rs lines 31-37 (Rust `i64` id modelled as `Int`;
the flow never performs arithmetic on it). -/
structure UserInfo where
  id : Int
  google_id : String
  email : String
  name : String
deriving DecidableEq, Repr

/-- `AuthResponse` from auth.rs lines 25-29: the decoded body of a successful
code-exchange response. -/
structure AuthResponse where
  token : String
  user : UserInfo
deriving DecidableEq, Repr

/-- `AuthState` from auth.rs lines 39-43: the session state (token and user
profile). -/
structure AuthState where
  token : Option String
  user : Option UserInfo
deriving DecidableEq, Repr

/-- `AuthState::default()` (the `#[derive(Default)]` on auth.rs line 39):
both fields `None`. -/
def AuthState.default : AuthState := { token := none, user := none }

/-- `AuthState::is_authenticated` from auth.rs lines 46-48:
`self.token.is_some()`. -/
def AuthState.is_authenticated (s : AuthState) : Bool := s.token.isSome

/-- `Message` from main.rs lines 13-20. -/
structure Message where
  id : Option Int
  content : String
  author : String
  created_at : Option String
  user_id : Option Int
deriving DecidableEq, Repr

/-- `AppState` from main.rs lines 22-29.  The spec calls `Loading`
"Authenticating" and `Error` "Failed". -/
inductive AppState where
  | CheckingAuth
  | Unauthenticated
  | Authenticated
  | Loading
  | Error (msg : String)
deriving DecidableEq, Repr

/-- The browser-global state the flow touches: the value stored under the
reserved localStorage key `"oauth_state"` (`none` also covers a storage
failure, which auth.rs lines 55-78 swallow into absence), and the current
URL's query parameters as the key-value pairs `web_sys::UrlSearchParams`
would expose, in order.  `location.search` is empty exactly when this list
is empty. -/
structure Browser where
  oauth_state : Option String
  query : List (String × String)
deriving DecidableEq, Repr

/-- `save_state` from auth.rs lines 55-61: writes the nonce under the
reserved key. -/
def save_state (st : String) (b : Browser) : Browser :=
  { b with oauth_state := some st }

/-- `get_saved_state` from auth.rs lines 63-70: reads the reserved key,
errors flattened to `none`. -/
def get_saved_state (b : Browser) : Option String := b.oauth_state

/-- `clear_saved_state` from auth.rs lines 72-78: removes the reserved key. -/
def clear_saved_state (b : Browser) : Browser :=
  { b with oauth_state := none }

/-- `UrlSearchParams::get`: first value bound to the key. -/
def lookupParam (q : List (String × String)) (k : String) : Option String :=
  (q.find? (fun p => p.1 == k)).map (fun p => p.2)

/-- `parse_oauth_callback` from auth.rs lines 104-118: `none` when the query
string is empty or either `code` or `state` is missing, otherwise the pair
`(code, state)`. -/
def parse_oauth_callback (q : List (String × String)) : Option (String × String) :=
  if q.isEmpty then none
  else
    match lookupParam q "code", lookupParam q "state" with
    | some code, some st => some (code, st)
    | _, _ => none

/-- `clear_url_params` from auth.rs lines 120-126: rewrites history to the
bare pathname, dropping the query string. -/
def clear_url_params (b : Browser) : Browser :=
  { b with query := [] }

/-- An HTTP response from the backend's code-exchange endpoint: its status
and the result of decoding its body as `AuthResponse` (`Except` error =
serde decode failure message). -/
structure HttpResponse where
  status : Nat
  body : Except String AuthResponse

/-- `gloo_net::http::Response::ok()` (the web `Response.ok` flag): status in
`[200, 300)`. -/
def HttpResponse.ok (r : HttpResponse) : Bool :=
  200 ≤ r.status && r.status < 300

/-- The backend as an oracle: what `POST {BACKEND_URL}/auth/google` with body
`{"code": code}` comes back with; `none` is a network send failure. -/
def Backend : Type := String → Option HttpResponse

/-- `exchange_code_for_token` from auth.rs lines 128-146, with the network
explicit.  Request construction (serializing `AuthRequest { code }`) cannot
fail for a plain string field, so that error arm is not reachable and is not
modelled.  A send failure, a non-2xx status and a body-decode failure each
produce their distinct message. -/
def exchange_code_for_token (code : String) (net : Backend) :
    Except String AuthResponse :=
  match net code with
  | none => Except.error "Failed to send request"
  | some r =>
    if !r.ok then
      Except.error ("Authentication failed: " ++ toString r.status)
    else
      match r.body with
      | Except.ok a => Except.ok a
      | Except.error e => Except.error ("Failed to parse response: " ++ e)

/-- The reactive state of one mount pass: browser-global state, session
state, application phase, and whether the exchange endpoint was invoked
during the pass. -/
structure MountResult where
  browser : Browser
  auth : AuthState
  app : AppState
  exchange_invoked : Bool
deriving Repr

/-- The mount-time `use_effect_with` handler of `app`, main.rs lines 42-84,
evaluated to the end of the pass (for the matching branch this includes the
spawned future resolving, so the transient `Loading` phase is overwritten by
`Authenticated` or `Error`).  Note what the source does NOT do: in the
state-mismatch branch (lines 67-70) and the no-saved-state branch (lines
71-74) neither `clear_saved_state` nor `clear_url_params` is called. -/
def app_mount_effect (b : Browser) (net : Backend) (auth0 : AuthState) :
    MountResult :=
  match parse_oauth_callback b.query with
  | some (code, st) =>
    match get_saved_state b with
    | some saved_state =>
      if saved_state == st then
        let b1 := clear_url_params (clear_saved_state b)
        match exchange_code_for_token code net with
        | Except.ok auth_response =>
          { browser := b1
            auth := { token := some auth_response.token
                      user := some auth_response.user }
            app := AppState.Authenticated
            exchange_invoked := true }
        | Except.error e =>
          { browser := b1, auth := auth0, app := AppState.Error e
            exchange_invoked := true }
      else
        { browser := b, auth := auth0, app := AppState.Unauthenticated
          exchange_invoked := false }
    | none =>
      { browser := b, auth := auth0, app := AppState.Unauthenticated
        exchange_invoked := false }
  | none =>
    if auth0.is_authenticated then
      { browser := b, auth := auth0, app := AppState.Authenticated
        exchange_invoked := false }
    else
      { browser := b, auth := auth0, app := AppState.Unauthenticated
        exchange_invoked := false }

/-- The visible UI state the logout callback touches (main.rs lines 33-35). -/
structure UiState where
  auth : AuthState
  app : AppState
  messages : List Message
deriving Repr

/-- `on_logout` from main.rs lines 123-133: three local `set` calls and
nothing else — no HTTP request is built or sent in the closure. -/
def on_logout (_s : UiState) : UiState :=
  { auth := AuthState.default
    app := AppState.Unauthenticated
    messages := [] }

/-- The messages-loading `use_effect_with` of main.rs lines 87-115: an
authenticated-resource fetch is attempted exactly when the phase is
`Authenticated` and a token is present; the result is the bearer token of
the attempted request, `none` when no request is attempted. -/
def load_messages_request (auth : AuthState) (app : AppState) : Option String :=
  match app with
  | AppState.Authenticated => auth.token
  | _ => none

/-! ## The URL encoder (auth.rs lines 148-160), the authorization request
(auth.rs lines 80-102), and their specification-side counterparts -/

/-- Model of Rust `char::is_alphanumeric` (used on auth.rs line 152).  Rust's
predicate consults the full Unicode tables; this model is exact on every code
point below 0x80 (where Unicode alphanumeric coincides with ASCII
alphanumeric) and at '€' (U+20AC, a currency symbol, alphanumeric in
neither).  Every theorem below applies it only at such code points. -/
def rustIsAlphanumeric (c : Char) : Bool := c.isAlphanum

/-- An uppercase hexadecimal digit; the Rust format `{:02X}` writes a byte as
two of these. -/
def hexDigitChar (n : Nat) : Char :=
  if n < 10 then Char.ofNat (48 + n) else Char.ofNat (55 + n)

/-- One character's image under `urlencoding::encode` (auth.rs lines
151-157): the character itself when `c.is_alphanumeric() ||
"-_.~".contains(c)`, otherwise `format!("%{:02X}", c as u8)` — note the
source's `c as u8` truncates the code point to its low 8 bits
(`c.toNat % 256`). -/
def encode_char (c : Char) : List Char :=
  if rustIsAlphanumeric c || "-_.~".data.contains c then [c]
  else ['%', hexDigitChar (c.toNat % 256 / 16), hexDigitChar (c.toNat % 256 % 16)]

namespace urlencoding

/-- `urlencoding::encode` (auth.rs lines 149-159): the per-character images
collected into one string. -/
def encode (s : String) : String := String.mk (s.data.flatMap encode_char)

end urlencoding

/-- `GOOGLE_AUTH_URL`, auth.rs line 7. -/
def GOOGLE_AUTH_URL : String := "https://accounts.google.com/o/oauth2/v2/auth"

/-- `CLIENT_ID`, auth.rs line 8. -/
def CLIENT_ID : String :=
  "126932716262-m3jg96nhn9efg7mkee5k9d9aqnu0282l.apps.googleusercontent.com"

/-- `REDIRECT_URI`, auth.rs lines 10-13, selected by `cfg(debug_assertions)`. -/
def REDIRECT_URI (debug_assertions : Bool) : String :=
  if debug_assertions then "http://localhost:8080/"
  else "https://geeom.github.io/personal_assistant/"

/-- The `params` array of `initiate_oauth_flow` (auth.rs lines 84-91): the
raw (key, value) pairs, with the freshly generated nonce as the `state`
value. -/
def oauth_params (debug_assertions : Bool) (st : String) : List (String × String) :=
  [("client_id", CLIENT_ID),
   ("redirect_uri", REDIRECT_URI debug_assertions),
   ("response_type", "code"),
   ("scope", "openid email profile"),
   ("state", st),
   ("access_type", "online")]

/-- The query string built by `initiate_oauth_flow` (auth.rs lines 93-97):
`k=encode(v)` fragments joined with `&`; the authorization URL (line 99) is
`GOOGLE_AUTH_URL ++ "?" ++ this`. -/
def oauth_query_string (debug_assertions : Bool) (st : String) : String :=
  String.intercalate "&" ((oauth_params debug_assertions st).map
    (fun kv => kv.1 ++ "=" ++ urlencoding.encode kv.2))

/-- The UTF-8 encoding of one character, as natural-number byte values. -/
def utf8Bytes (c : Char) : List Nat :=
  let n := c.toNat
  if n < 128 then [n]
  else if n < 2048 then [192 + n / 64, 128 + n % 64]
  else if n < 65536 then [224 + n / 4096, 128 + n / 64 % 64, 128 + n % 64]
  else [240 + n / 262144, 128 + n / 4096 % 64, 128 + n / 64 % 64, 128 + n % 64]

/-- Modelled from the spec: a byte left unescaped by "the standard URL
query-encoding rules (alphanumerics and `-_.~` unescaped, all other bytes
escaped)". -/
def byteUnreserved (b : Nat) : Bool :=
  (48 ≤ b && b ≤ 57) || (65 ≤ b && b ≤ 90) || (97 ≤ b && b ≤ 122) ||
    b == 45 || b == 95 || b == 46 || b == 126

/-- Modelled from the spec: the image of one byte under standard URL query
encoding — the byte's own character when unreserved, `%XX` uppercase hex
otherwise. -/
def specEncodeByte (b : Nat) : List Char :=
  if byteUnreserved b then [Char.ofNat b]
  else ['%', hexDigitChar (b / 16 % 16), hexDigitChar (b % 16)]

/-- Modelled from the spec: "standard URL query encoding over the string's
bytes" — every UTF-8 byte of the input mapped through `specEncodeByte`.
This is the comparison target for the source's `urlencoding::encode`. -/
def specQueryEncode (s : String) : String :=
  String.mk ((s.data.flatMap utf8Bytes).flatMap specEncodeByte)

/-- Modelled from the spec: the value of a hexadecimal digit as the
provider's URL parser reads it. -/
def hexVal (c : Char) : Option Nat :=
  if 48 ≤ c.toNat ∧ c.toNat ≤ 57 then some (c.toNat - 48)
  else if 65 ≤ c.toNat ∧ c.toNat ≤ 70 then some (c.toNat - 55)
  else if 97 ≤ c.toNat ∧ c.toNat ≤ 102 then some (c.toNat - 87)
  else none

/-- Modelled from the spec: percent-decoding to a byte sequence, the first
leg of "round-tripping through the provider's URL parser" — `%XX` becomes
the byte `XX`, any other character contributes its UTF-8 bytes, and a
malformed `%` escape is kept literally. -/
def percentDecodeBytes : List Char → List Nat
  | [] => []
  | c :: rest =>
    if c = '%' then
      match rest with
      | h1 :: h2 :: rest2 =>
        match hexVal h1, hexVal h2 with
        | some a, some b => (16 * a + b) :: percentDecodeBytes rest2
        | _, _ => utf8Bytes c ++ percentDecodeBytes (h1 :: h2 :: rest2)
      | [h1] => utf8Bytes c ++ percentDecodeBytes [h1]
      | [] => utf8Bytes c
    else utf8Bytes c ++ percentDecodeBytes rest
termination_by l => l.length
decreasing_by all_goals simp <;> omega

/-- Modelled from the spec: UTF-8 decoding of a byte sequence back to
characters, the second leg of the provider's parse.  Validity checks are
omitted and malformed input yields U+FFFD; the theorems below exercise only
ASCII bytes, where decoding is exact. -/
def utf8Decode : List Nat → List Char
  | [] => []
  | b :: rest =>
    if b < 128 then Char.ofNat b :: utf8Decode rest
    else if b < 192 then Char.ofNat 65533 :: utf8Decode rest
    else if b < 224 then
      Char.ofNat ((b - 192) * 64 + (rest.headD 0 - 128)) ::
        utf8Decode (rest.drop 1)
    else if b < 240 then
      Char.ofNat ((b - 224) * 4096 + (rest.headD 0 - 128) * 64 +
          ((rest.drop 1).headD 0 - 128)) ::
        utf8Decode (rest.drop 2)
    else
      Char.ofNat ((b - 240) * 262144 + (rest.headD 0 - 128) * 4096 +
          ((rest.drop 1).headD 0 - 128) * 64 + ((rest.drop 2).headD 0 - 128)) ::
        utf8Decode (rest.drop 3)
termination_by l => l.length
decreasing_by all_goals simp <;> omega

/-- Modelled from the spec: full percent-decoding as the provider's URL
parser performs it — byte-level percent decode followed by UTF-8 decode. -/
def percentDecode (s : String) : String :=
  String.mk (utf8Decode (percentDecodeBytes s.data))

/-- Modelled from the spec: after authorization the provider redirects to
the registered redirect URI carrying the `code` it issued and echoing back
the state value it decoded from the authorization URL; these are the query
parameters the callback page sees. -/
def provider_redirect_query (code st : String) : List (String × String) :=
  [("code", code), ("state", st)]

/-! ## Concrete fixtures used by the scenario claims -/

/-- The user profile of the spec's exchange-success scenario. -/
def sampleUser : UserInfo :=
  { id := 1, google_id := "g1", email := "e@x.com", name := "E" }

/-- The exchange-success response body of the spec's scenario:
`{"token":"t1","user":{"id":1,"google_id":"g1","email":"e@x.com","name":"E"}}`. -/
def sampleAuthResponse : AuthResponse :=
  { token := "t1", user := sampleUser }

/-! ## Claim theorems: the application state machine -/

/-- C1: a callback whose received state differs from the saved nonce, or that
arrives with no nonce saved, drives the state machine to `Unauthenticated`
without invoking the token exchange; the exchange is invoked exactly when a
saved nonce exists and equals the received state. -/
theorem c1_state_validation_gates_exchange (b : Browser) (net : Backend)
    (auth0 : AuthState) (code st : String)
    (hp : parse_oauth_callback b.query = some (code, st)) :
    ((get_saved_state b = none ∨ get_saved_state b ≠ some st) →
      (app_mount_effect b net auth0).app = AppState.Unauthenticated ∧
      (app_mount_effect b net auth0).exchange_invoked = false) ∧
    ((app_mount_effect b net auth0).exchange_invoked = true ↔
      get_saved_state b = some st) := by
  unfold app_mount_effect
  rw [hp]
  cases hs : get_saved_state b with
  | none => simp
  | some saved =>
    by_cases h : saved = st
    · subst h
      simp only [beq_self_eq_true, if_true]
      cases he : exchange_code_for_token code net <;> simp [he]
    · simp [h]

theorem c1_witness :
    (app_mount_effect { oauth_state := none, query := [("code", "c"), ("state", "xyz")] }
        (fun _ => none) AuthState.default).app = AppState.Unauthenticated ∧
    (app_mount_effect { oauth_state := none, query := [("code", "c"), ("state", "xyz")] }
        (fun _ => none) AuthState.default).exchange_invoked = false :=
  (c1_state_validation_gates_exchange
    { oauth_state := none, query := [("code", "c"), ("state", "xyz")] }
    (fun _ => none) AuthState.default "c" "xyz" (by decide)).1 (Or.inl rfl)

/-- C2: when the callback state matches the saved nonce and the exchange
endpoint answers with a 2xx status and the body carrying token "t1" and user
(1, "g1", "e@x.com", "E"), the pass ends in phase `Authenticated` with
session token "t1" and the profile fields copied exactly. -/
theorem c2_exchange_success_populates_session (b : Browser) (net : Backend)
    (auth0 : AuthState) (code st : String) (status : Nat)
    (hp : parse_oauth_callback b.query = some (code, st))
    (hs : get_saved_state b = some st)
    (h2 : 200 ≤ status ∧ status < 300)
    (hnet : net code = some { status := status, body := Except.ok sampleAuthResponse }) :
    (app_mount_effect b net auth0).app = AppState.Authenticated ∧
    (app_mount_effect b net auth0).auth.token = some "t1" ∧
    (app_mount_effect b net auth0).auth.user = some sampleUser := by
  have he : exchange_code_for_token code net = Except.ok sampleAuthResponse := by
    unfold exchange_code_for_token
    rw [hnet]
    simp [HttpResponse.ok, h2.1, h2.2]
  unfold app_mount_effect
  rw [hp, hs]
  simp [he, sampleAuthResponse]

theorem c2_witness :
    (app_mount_effect { oauth_state := some "n1", query := [("code", "c"), ("state", "n1")] }
        (fun _ => some { status := 200, body := Except.ok sampleAuthResponse })
        AuthState.default).app = AppState.Authenticated ∧
    (app_mount_effect { oauth_state := some "n1", query := [("code", "c"), ("state", "n1")] }
        (fun _ => some { status := 200, body := Except.ok sampleAuthResponse })
        AuthState.default).auth.token = some "t1" ∧
    (app_mount_effect { oauth_state := some "n1", query := [("code", "c"), ("state", "n1")] }
        (fun _ => some { status := 200, body := Except.ok sampleAuthResponse })
        AuthState.default).auth.user = some sampleUser :=
  c2_exchange_success_populates_session
    { oauth_state := some "n1", query := [("code", "c"), ("state", "n1")] }
    (fun _ => some { status := 200, body := Except.ok sampleAuthResponse })
    AuthState.default "c" "n1" 200 (by decide) rfl (by decide) rfl

/-- C3: when the exchange fails (for instance the endpoint answers 401), the
pass ends in phase `Error` carrying the failure message, and the session —
which started as the empty default — is untouched: token and user are both
still absent. -/
theorem c3_exchange_failure_leaves_session_empty (b : Browser) (net : Backend)
    (code st e : String)
    (hp : parse_oauth_callback b.query = some (code, st))
    (hs : get_saved_state b = some st)
    (he : exchange_code_for_token code net = Except.error e) :
    (app_mount_effect b net AuthState.default).app = AppState.Error e ∧
    (app_mount_effect b net AuthState.default).auth.token = none ∧
    (app_mount_effect b net AuthState.default).auth.user = none := by
  unfold app_mount_effect
  rw [hp, hs]
  simp [he, AuthState.default]

theorem c3_witness :
    (app_mount_effect { oauth_state := some "n1", query := [("code", "c"), ("state", "n1")] }
        (fun _ => some { status := 401, body := Except.error "unused" })
        AuthState.default).app = AppState.Error "Authentication failed: 401" ∧
    (app_mount_effect { oauth_state := some "n1", query := [("code", "c"), ("state", "n1")] }
        (fun _ => some { status := 401, body := Except.error "unused" })
        AuthState.default).auth.token = none ∧
    (app_mount_effect { oauth_state := some "n1", query := [("code", "c"), ("state", "n1")] }
        (fun _ => some { status := 401, body := Except.error "unused" })
        AuthState.default).auth.user = none :=
  c3_exchange_failure_leaves_session_empty
    { oauth_state := some "n1", query := [("code", "c"), ("state", "n1")] }
    (fun _ => some { status := 401, body := Except.error "unused" })
    "c" "n1" "Authentication failed: 401" (by decide) rfl rfl

/-- C5 counterexample: a callback with saved nonce "abc" and received state
"xyz" is processed (the pass ends `Unauthenticated`), yet the URL query
parameters are still present afterwards and re-parsing them yields the same
callback again, not `none` — the source calls `clear_url_params` only in the
state-match branch (main.rs line 48). -/
theorem c5_counterexample :
    (app_mount_effect { oauth_state := some "abc", query := [("code", "c"), ("state", "xyz")] }
        (fun _ => none) AuthState.default).app = AppState.Unauthenticated ∧
    (app_mount_effect { oauth_state := some "abc", query := [("code", "c"), ("state", "xyz")] }
        (fun _ => none) AuthState.default).browser.query = [("code", "c"), ("state", "xyz")] ∧
    parse_oauth_callback
      (app_mount_effect { oauth_state := some "abc", query := [("code", "c"), ("state", "xyz")] }
        (fun _ => none) AuthState.default).browser.query = some ("c", "xyz") := by
  refine ⟨rfl, rfl, ?_⟩
  decide

/-- C5 (amended): only after a callback whose state matches the saved nonce
is processed are the URL query parameters removed, after which re-parsing
yields `none`; a mismatched (or missing-nonce) callback leaves the URL query
unchanged. -/
theorem c5_url_cleared_only_on_match (b : Browser) (net : Backend)
    (auth0 : AuthState) (code st : String)
    (hp : parse_oauth_callback b.query = some (code, st)) :
    (get_saved_state b = some st →
      (app_mount_effect b net auth0).browser.query = [] ∧
      parse_oauth_callback (app_mount_effect b net auth0).browser.query = none) ∧
    (get_saved_state b ≠ some st →
      (app_mount_effect b net auth0).browser.query = b.query) := by
  unfold app_mount_effect
  rw [hp]
  cases hs : get_saved_state b with
  | none => simp [parse_oauth_callback]
  | some saved =>
    by_cases h : saved = st
    · subst h
      simp only [beq_self_eq_true, if_true]
      cases he : exchange_code_for_token code net <;>
        simp [clear_url_params, clear_saved_state, parse_oauth_callback]
    · simp [h, Option.some_inj]

theorem c5_witness :
    (get_saved_state { oauth_state := some "n1", query := [("code", "c"), ("state", "n1")] } = some "n1" →
      (app_mount_effect { oauth_state := some "n1", query := [("code", "c"), ("state", "n1")] }
        (fun _ => none) AuthState.default).browser.query = [] ∧
      parse_oauth_callback
        (app_mount_effect { oauth_state := some "n1", query := [("code", "c"), ("state", "n1")] }
          (fun _ => none) AuthState.default).browser.query = none) ∧
    (get_saved_state { oauth_state := some "n1", query := [("code", "c"), ("state", "n1")] } ≠ some "n1" →
      (app_mount_effect { oauth_state := some "n1", query := [("code", "c"), ("state", "n1")] }
        (fun _ => none) AuthState.default).browser.query = [("code", "c"), ("state", "n1")]) :=
  c5_url_cleared_only_on_match
    { oauth_state := some "n1", query := [("code", "c"), ("state", "n1")] }
    (fun _ => none) AuthState.default "c" "n1" (by decide)

/-- C6 counterexample: a callback processed while nonce "abc" is saved but
with mismatching received state "xyz" leaves the nonce in storage — the
reserved key is not absent afterwards, because the source calls
`clear_saved_state` only in the state-match branch (main.rs line 47). -/
theorem c6_counterexample :
    (app_mount_effect { oauth_state := some "abc", query := [("code", "c"), ("state", "xyz")] }
        (fun _ => none) AuthState.default).browser.oauth_state = some "abc" ∧
    (app_mount_effect { oauth_state := some "abc", query := [("code", "c"), ("state", "xyz")] }
        (fun _ => none) AuthState.default).browser.oauth_state ≠ none := by
  refine ⟨rfl, ?_⟩
  decide

/-- C6 (amended): when a callback is processed and the saved nonce equals the
received state, the nonce is deleted from storage — before and regardless of
the exchange's outcome, since the backend oracle here is arbitrary; when the
saved nonce differs from the received state the storage key is left
unchanged (the nonce is not consumed on mismatch). -/
theorem c6_nonce_consumed_only_on_match (b : Browser) (net : Backend)
    (auth0 : AuthState) (code st : String)
    (hp : parse_oauth_callback b.query = some (code, st)) :
    (get_saved_state b = some st →
      (app_mount_effect b net auth0).browser.oauth_state = none) ∧
    (get_saved_state b ≠ some st →
      (app_mount_effect b net auth0).browser.oauth_state = b.oauth_state) := by
  unfold app_mount_effect
  rw [hp]
  cases hs : get_saved_state b with
  | none =>
    have hb : b.oauth_state = none := hs
    simp [hb]
  | some saved =>
    have hb : b.oauth_state = some saved := hs
    by_cases h : saved = st
    · subst h
      simp only [beq_self_eq_true, if_true]
      cases he : exchange_code_for_token code net <;>
        simp [clear_url_params, clear_saved_state, hb]
    · simp [h, hb, Option.some_inj]

theorem c6_witness :
    (get_saved_state { oauth_state := some "n1", query := [("code", "c"), ("state", "n1")] } = some "n1" →
      (app_mount_effect { oauth_state := some "n1", query := [("code", "c"), ("state", "n1")] }
        (fun _ => none) AuthState.default).browser.oauth_state = none) ∧
    (get_saved_state { oauth_state := some "n1", query := [("code", "c"), ("state", "n1")] } ≠ some "n1" →
      (app_mount_effect { oauth_state := some "n1", query := [("code", "c"), ("state", "n1")] }
        (fun _ => none) AuthState.default).browser.oauth_state = some "n1") :=
  c6_nonce_consumed_only_on_match
    { oauth_state := some "n1", query := [("code", "c"), ("state", "n1")] }
    (fun _ => none) AuthState.default "c" "n1" (by decide)

/-- C8: sign-out from any UI state empties the session (token and user both
absent), sets the phase to `Unauthenticated`, and afterwards the
authenticated-resource fetch is not attempted; `on_logout` is a pure local
state reset — its definition builds no request and consults no backend. -/
theorem c8_logout_resets_locally (s : UiState) :
    (on_logout s).auth.token = none ∧
    (on_logout s).auth.user = none ∧
    (on_logout s).app = AppState.Unauthenticated ∧
    load_messages_request (on_logout s).auth (on_logout s).app = none := by
  simp [on_logout, load_messages_request, AuthState.default]

/-- C9: each write the state machine performs on the session keeps token and
user in sync — the initial default has both absent, a mount pass started
from a token-user-consistent session ends in one (the exchange-success write
sets both, every other path leaves the session untouched), and sign-out
clears both. -/
theorem c9_token_and_user_set_together (b : Browser) (net : Backend)
    (auth0 : AuthState) (s : UiState)
    (h : auth0.token.isSome = auth0.user.isSome) :
    AuthState.default.token.isSome = AuthState.default.user.isSome ∧
    (app_mount_effect b net auth0).auth.token.isSome =
      (app_mount_effect b net auth0).auth.user.isSome ∧
    (on_logout s).auth.token.isSome = (on_logout s).auth.user.isSome := by
  refine ⟨rfl, ?_, rfl⟩
  unfold app_mount_effect
  cases hp : parse_oauth_callback b.query with
  | none => by_cases ha : auth0.is_authenticated <;> simp [ha, h]
  | some p =>
    obtain ⟨code, st⟩ := p
    cases hs : get_saved_state b with
    | none => simpa using h
    | some saved =>
      by_cases hss : saved = st
      · subst hss
        simp only [beq_self_eq_true, if_true]
        cases he : exchange_code_for_token code net <;> simp [he, h]
      · simp [hss, h]

theorem c9_witness :
    AuthState.default.token.isSome = AuthState.default.user.isSome ∧
    (app_mount_effect { oauth_state := none, query := [] }
        (fun _ => none) AuthState.default).auth.token.isSome =
      (app_mount_effect { oauth_state := none, query := [] }
        (fun _ => none) AuthState.default).auth.user.isSome ∧
    (on_logout { auth := AuthState.default, app := AppState.CheckingAuth, messages := [] }).auth.token.isSome =
      (on_logout { auth := AuthState.default, app := AppState.CheckingAuth, messages := [] }).auth.user.isSome :=
  c9_token_and_user_set_together { oauth_state := none, query := [] }
    (fun _ => none) AuthState.default
    { auth := AuthState.default, app := AppState.CheckingAuth, messages := [] } rfl

/-- C10: `is_authenticated` is exactly token presence: it ignores the user
profile entirely, and a session holding a token but no profile still counts
as authenticated. -/
theorem c10_is_authenticated_is_token_presence (t tok : Option String)
    (u v : Option UserInfo) :
    AuthState.is_authenticated { token := t, user := u } = t.isSome ∧
    AuthState.is_authenticated { token := t, user := u } =
      AuthState.is_authenticated { token := t, user := v } ∧
    (∀ w : String, AuthState.is_authenticated { token := some w, user := none } = true) ∧
    AuthState.is_authenticated { token := tok, user := none } = tok.isSome := by
  refine ⟨rfl, rfl, fun w => rfl, rfl⟩

/-! ## Helper lemmas for the encoder claims -/

theorem utf8Bytes_ascii (c : Char) (h : c.toNat < 128) : utf8Bytes c = [c.toNat] := by
  unfold utf8Bytes
  simp [h]

theorem hexVal_hexDigitChar : ∀ v : Nat, v < 16 → hexVal (hexDigitChar v) = some v := by
  decide

theorem percentDecodeBytes_cons_of_ne (c : Char) (rest : List Char) (h : c ≠ '%') :
    percentDecodeBytes (c :: rest) = utf8Bytes c ++ percentDecodeBytes rest := by
  rw [percentDecodeBytes.eq_def]
  simp [h]

theorem percentDecodeBytes_escape (d1 d2 : Char) (a b : Nat) (rest : List Char)
    (h1 : hexVal d1 = some a) (h2 : hexVal d2 = some b) :
    percentDecodeBytes ('%' :: d1 :: d2 :: rest) =
      (16 * a + b) :: percentDecodeBytes rest := by
  rw [percentDecodeBytes.eq_def]
  simp [h1, h2]

theorem percentDecodeBytes_encode_char (c : Char) (hc : c.toNat < 128)
    (rest : List Char) :
    percentDecodeBytes (encode_char c ++ rest) = c.toNat :: percentDecodeBytes rest := by
  unfold encode_char
  by_cases h : (rustIsAlphanumeric c || "-_.~".data.contains c) = true
  · rw [if_pos h, List.singleton_append]
    have hne : c ≠ '%' := by
      intro he
      rw [he] at h
      exact absurd h (by decide)
    rw [percentDecodeBytes_cons_of_ne c rest hne, utf8Bytes_ascii c hc,
      List.singleton_append]
  · rw [if_neg h]
    have hm : c.toNat % 256 = c.toNat := Nat.mod_eq_of_lt (by omega)
    rw [hm, List.cons_append, List.cons_append, List.cons_append, List.nil_append,
      percentDecodeBytes_escape _ _ _ _ rest
        (hexVal_hexDigitChar (c.toNat / 16) (by omega))
        (hexVal_hexDigitChar (c.toNat % 16) (Nat.mod_lt _ (by norm_num))),
      Nat.div_add_mod]

theorem percentDecodeBytes_flatMap_encode (l : List Char)
    (h : ∀ c ∈ l, c.toNat < 128) :
    percentDecodeBytes (l.flatMap encode_char) = l.map Char.toNat := by
  induction l with
  | nil => simp [percentDecodeBytes]
  | cons c t ih =>
    rw [List.flatMap_cons,
      percentDecodeBytes_encode_char c (h c (List.mem_cons_self c t)),
      List.map_cons, ih (fun x hx => h x (List.mem_cons_of_mem c hx))]

theorem utf8Decode_map_toNat (l : List Char) (h : ∀ c ∈ l, c.toNat < 128) :
    utf8Decode (l.map Char.toNat) = l := by
  induction l with
  | nil => simp [utf8Decode]
  | cons c t ih =>
    have hc : c.toNat < 128 := h c (List.mem_cons_self c t)
    rw [List.map_cons, utf8Decode.eq_def]
    simp only [hc, if_true]
    rw [Char.ofNat_toNat, ih (fun x hx => h x (List.mem_cons_of_mem c hx))]

theorem percentDecode_encode (n : String) (h : ∀ c ∈ n.data, c.toNat < 128) :
    percentDecode (urlencoding.encode n) = n := by
  unfold percentDecode urlencoding.encode
  rw [show (String.mk (n.data.flatMap encode_char)).data = n.data.flatMap encode_char
      from rfl,
    percentDecodeBytes_flatMap_encode n.data h, utf8Decode_map_toNat n.data h]

theorem specEncodeByte_ascii :
    ∀ b : Nat, b < 128 → specEncodeByte b = encode_char (Char.ofNat b) := by
  decide

theorem encode_char_eq_specEncodeByte (c : Char) (h : c.toNat < 128) :
    encode_char c = specEncodeByte c.toNat := by
  have h2 := specEncodeByte_ascii c.toNat h
  rw [Char.ofNat_toNat] at h2
  exact h2.symm

theorem flatMap_spec_eq_flatMap_encode (l : List Char)
    (h : ∀ c ∈ l, c.toNat < 128) :
    (l.flatMap utf8Bytes).flatMap specEncodeByte = l.flatMap encode_char := by
  induction l with
  | nil => rfl
  | cons c t ih =>
    have hc : c.toNat < 128 := h c (List.mem_cons_self c t)
    rw [List.flatMap_cons, List.flatMap_cons, utf8Bytes_ascii c hc,
      List.singleton_append, List.flatMap_cons, encode_char_eq_specEncodeByte c hc,
      ih (fun x hx => h x (List.mem_cons_of_mem c hx))]

/-! ## Claim theorems: the URL encoder and the round trip -/

/-- C4 counterexample: on the non-ASCII input "€" (U+20AC, UTF-8 bytes
E2 82 AC) the source encoder emits "%AC" — `c as u8` truncated the code
point — while standard URL query encoding over the string's bytes demands
"%E2%82%AC"; the claim fails for this input string. -/
theorem c4_counterexample :
    urlencoding.encode "€" = "%AC" ∧
    specQueryEncode "€" = "%E2%82%AC" ∧
    urlencoding.encode "€" ≠ specQueryEncode "€" := by
  refine ⟨by decide, by decide, by decide⟩

/-- C4 (amended): for every ASCII input string (all code points below 128)
the encoder agrees byte-for-byte with standard URL query encoding — exactly
the alphanumerics and '-', '_', '.', '~' stay unescaped and every other byte
becomes '%' followed by two uppercase hex digits. -/
theorem c4_encode_matches_spec_on_ascii (s : String)
    (h : ∀ c ∈ s.data, c.toNat < 128) :
    urlencoding.encode s = specQueryEncode s := by
  unfold urlencoding.encode specQueryEncode
  rw [flatMap_spec_eq_flatMap_encode s.data h]

theorem c4_witness :
    urlencoding.encode "a b-c!~" = specQueryEncode "a b-c!~" :=
  c4_encode_matches_spec_on_ascii "a b-c!~" (by decide)

/-- C7: for an ASCII nonce n — every nonce `generate_state` produces is a
UUID-v4 string, hence ASCII — and an arbitrary code: the `state` parameter
of the authorization request built with n is n itself, percent-decoding its
encoded form (the provider's URL parser's view of the built URL) recovers
exactly n, and parsing the provider's redirect target, which echoes that
decoded state with the code attached, recovers exactly the pair (code, n). -/
theorem c7_roundtrip_recovers_code_and_state (n code : String)
    (h : ∀ c ∈ n.data, c.toNat < 128) :
    lookupParam (oauth_params false n) "state" = some n ∧
    percentDecode (urlencoding.encode n) = n ∧
    parse_oauth_callback
      (provider_redirect_query code (percentDecode (urlencoding.encode n))) =
      some (code, n) := by
  have hd := percentDecode_encode n h
  exact ⟨rfl, hd, by rw [hd]; rfl⟩

theorem c7_witness :
    lookupParam (oauth_params false "ab-12") "state" = some "ab-12" ∧
    percentDecode (urlencoding.encode "ab-12") = "ab-12" ∧
    parse_oauth_callback
      (provider_redirect_query "4/0Axyz" (percentDecode (urlencoding.encode "ab-12"))) =
      some ("4/0Axyz", "ab-12") :=
  c7_roundtrip_recovers_code_and_state "ab-12" "4/0Axyz" (by decide)
